import Mathlib

/-!
Shallow embedding of `packages/engine/stdlib/src/py/hstd/neighbor.py`
(neighbor utility functions of the HASH engine python stdlib), together
with spec-modelled versions of the agent record (`hstd/agent.py`) and the
distance primitives (`hstd/spatial.py`), which the module imports but
whose sources are not part of this repository snapshot.

Numbers are modelled as exact rationals (coordinates) and reals
(distances, since the euclidean distance takes a square root).  Python
errors are modelled with `Except`: a lazily filtered sequence is
materialised, so an error raised while the predicate is evaluated on some
candidate surfaces as an `Except.error` of the whole call.
-/

/-- Python errors that the modelled code can raise. -/
inductive PyErr where
  /-- `pos_error = Exception("agent must have a position")` -/
  | posError
  /-- `dir_error = Exception("agent must have a direction")` -/
  | dirError
  /-- `KeyError`: mapping lookup with an absent key. -/
  | keyError
  /-- `IndexError`: sequence index out of range. -/
  | indexError
  /-- `TypeError`: e.g. `reduce` over an empty sequence. -/
  | typeError
  /-- `ValueError`: e.g. unpacking a sequence of the wrong length. -/
  | valueError
deriving DecidableEq, Repr

/-- Modelled from the spec: an agent record is an opaque mapping from
field name to value; the fields consumed by this module are `position`
(a sequence of numeric coordinates) and `direction` (a facing vector).
A missing or `None` field and an empty sequence are both falsy in the
source's `if not agent["position"]` checks, so both are modelled as the
empty list. -/
structure AgentState where
  position : List ℚ
  direction : List ℚ
deriving DecidableEq, Repr

/-- Keys of a Python mapping lookup as used by `neighbor.py`: the agent
record is subscripted both with string literals (`agent["position"]`) and
— in `neighbors_on_position` — with an integer loop index
(`neighbor[ind]`). -/
inductive Key where
  | s (v : String)
  | i (v : Nat)
deriving DecidableEq, Repr

/-- Values stored in an agent record's fields: the fields this module
reads are coordinate vectors. -/
inductive PyVal where
  | num (q : ℚ)
  | vec (v : List ℚ)
deriving DecidableEq, Repr

/-- Modelled from the spec: the entries of the agent mapping are keyed by
field names (strings); there are no integer keys. -/
def AgentState.entries (a : AgentState) : List (Key × PyVal) :=
  [(Key.s "position", PyVal.vec a.position),
   (Key.s "direction", PyVal.vec a.direction)]

/-- Modelled from the spec: `a[k]` on an agent record — a mapping lookup
that raises `KeyError` when the key names no field. -/
def AgentState.getItem (a : AgentState) (k : Key) : Except PyErr PyVal :=
  match a.entries.find? (fun e => e.1 = k) with
  | some e => .ok e.2
  | none => .error .keyError

/-- Python's `sequence[i]`: the element at `i`, or `IndexError` when `i`
is out of range. -/
def idx (l : List ℚ) (i : Nat) : Except PyErr ℚ :=
  match l.get? i with
  | some v => .ok v
  | none => .error .indexError

/-- Materialisation of Python's lazy `filter(p, l)` under a fallible
predicate: candidates are tested left to right and the first error raised
by the predicate aborts the evaluation. -/
def filterE (p : AgentState → Except PyErr Bool) :
    List AgentState → Except PyErr (List AgentState)
  | [] => .ok []
  | x :: xs => do
    let b ← p x
    let rest ← filterE p xs
    pure (if b then x :: rest else rest)

/-- Modelled from the spec: `manhattan_distance` (from `hstd/spatial.py`,
not in this snapshot) — sum of absolute component differences. -/
def manhattan_distance (a b : List ℚ) : ℚ :=
  (List.zipWith (fun x y => |x - y|) a b).sum

/-- Modelled from the spec: `euclidean_squared_distance` — sum of squared
component differences. -/
def euclidean_squared_distance (a b : List ℚ) : ℚ :=
  (List.zipWith (fun x y => (x - y) ^ 2) a b).sum

/-- Modelled from the spec: `euclidean_distance` — square root of the sum
of squared component differences. -/
noncomputable def euclidean_distance (a b : List ℚ) : ℝ :=
  Real.sqrt ((euclidean_squared_distance a b : ℚ) : ℝ)

/-- Modelled from the spec: `chebyshev_distance` — maximum absolute
component difference. -/
def chebyshev_distance (a b : List ℚ) : ℚ :=
  (List.zipWith (fun x y => |x - y|) a b).foldr max 0

/-- The dispatch dict built by `neighbors_in_radius`:
`{"manhattan": …, "euclidean": …, "euclidean_squared": …, "chebyshev": …}`,
looked up by name; a name outside the four entries is `none`
(Python: `KeyError` at the lookup site). -/
noncomputable def distance_func (name : String) :
    Option (List ℚ → List ℚ → ℝ) :=
  if name = "manhattan" then some (fun p q => ((manhattan_distance p q : ℚ) : ℝ))
  else if name = "euclidean" then some (fun p q => euclidean_distance p q)
  else if name = "euclidean_squared" then
    some (fun p q => ((euclidean_squared_distance p q : ℚ) : ℝ))
  else if name = "chebyshev" then some (fun p q => ((chebyshev_distance p q : ℚ) : ℝ))
  else none

/-- The inner predicate `on_position` of `neighbors_on_position`:
`pos_equal = [pos[ind] == neighbor[ind] for ind in range(len(pos))]`
followed by `reduce(lambda a, b: bool(a and b), pos_equal)`.  Note the
source subscripts the candidate record itself with the integer loop
index (`neighbor[ind]`), not the candidate's position vector. -/
def on_position (agent neighbor : AgentState) : Except PyErr Bool := do
  let pos := agent.position
  let pos_equal ← (List.range pos.length).mapM (fun ind => do
    let rhs ← neighbor.getItem (Key.i ind)
    pure (PyVal.num (pos.getD ind 0) == rhs))
  match pos_equal with
  | [] => .error .typeError
  | b :: bs => .ok (bs.foldl (fun x y => x && y) b)

/-- `neighbors_on_position(agent, neighbors)`. -/
def neighbors_on_position (agent : AgentState) (neighbors : List AgentState) :
    Except PyErr (List AgentState) :=
  if agent.position = [] then .error .posError
  else filterE (on_position agent) neighbors

/-- The inner predicate `in_radius` of `neighbors_in_radius`:
`d = func[distance_function](neighbor["position"], pos)` then
`(d <= max_radius) and (d >= min_radius)`. -/
noncomputable def in_radius (agent : AgentState) (max_radius min_radius : ℝ)
    (distance_function : String) (neighbor : AgentState) : Except PyErr Bool :=
  match distance_func distance_function with
  | none => .error .keyError
  | some f =>
    let d := f neighbor.position agent.position
    .ok (decide (d ≤ max_radius) && decide (d ≥ min_radius))

/-- `neighbors_in_radius(agent, neighbors, max_radius, min_radius,
distance_function, z_axis)`.  The `z_axis` flag is accepted but never read
by the body (the source carries a `# TODO implement way to ignore z axis`
comment). -/
noncomputable def neighbors_in_radius (agent : AgentState)
    (neighbors : List AgentState) (max_radius min_radius : ℝ)
    (distance_function : String) (z_axis : Bool) :
    Except PyErr (List AgentState) :=
  if agent.position = [] then .error .posError
  else filterE (in_radius agent max_radius min_radius distance_function) neighbors

/-- `in_front_planar(agent, neighbor)`: displacement
`[dx, dy, dz] = [n_pos[ind] - a_pos[ind] for ind in range(3)]`, dot
product `D = a_dir[0]*dx + a_dir[1]*dy + a_dir[2]*dz`, result `D > 0`. -/
def in_front_planar (agent neighbor : AgentState) : Except PyErr Bool := do
  let a_pos := agent.position
  let n_pos := neighbor.position
  let a_dir := agent.direction
  let dx := (← idx n_pos 0) - (← idx a_pos 0)
  let dy := (← idx n_pos 1) - (← idx a_pos 1)
  let dz := (← idx n_pos 2) - (← idx a_pos 2)
  let D := (← idx a_dir 0) * dx + (← idx a_dir 1) * dy + (← idx a_dir 2) * dz
  pure (decide (D > 0))

/-- Python truthiness of a number: nonzero. -/
def truthy (q : ℚ) : Bool := decide (q ≠ 0)

/-- `is_linear(agent, neighbor, front)`.  The displacement and the
direction components are read as in the source (`[ax, ay, az] =
agent['direction']` is an exact-length-3 unpacking).  The test
`all_zero = reduce(lambda a, b: not bool(a or b), cross_product)` is
folded out over the three cross-product components exactly as Python's
`reduce` evaluates it: the first step combines the first two numeric
components, the second step combines that boolean with the third numeric
component. -/
def is_linear (agent neighbor : AgentState) (front : Bool) :
    Except PyErr Bool := do
  let a_pos := agent.position
  let n_pos := neighbor.position
  let dx := (← idx n_pos 0) - (← idx a_pos 0)
  let dy := (← idx n_pos 1) - (← idx a_pos 1)
  let dz := (← idx n_pos 2) - (← idx a_pos 2)
  match agent.direction with
  | [ax, ay, az] =>
    let c0 := dy * az - dz * ay
    let c1 := dx * az - dz * ax
    let c2 := dx * ay - dy * ax
    let all_zero := !((!(truthy c0 || truthy c1)) || truthy c2)
    if !all_zero then
      pure false
    else
      let same_dir := (decide (dx > 0) && decide (ax > 0))
        || (decide (dy > 0) && decide (ay > 0))
        || (decide (dz > 0) && decide (az > 0))
      pure (same_dir == front)
  | _ => .error .valueError

/-- `neighbors_in_front(agent, neighbors, colinear)`. -/
def neighbors_in_front (agent : AgentState) (neighbors : List AgentState)
    (colinear : Bool) : Except PyErr (List AgentState) :=
  if agent.position = [] then .error .posError
  else if agent.direction = [] then .error .dirError
  else if colinear then filterE (fun n => is_linear agent n true) neighbors
  else filterE (fun n => in_front_planar agent n) neighbors

/-- `neighbors_behind(agent, neighbors, colinear)`. -/
def neighbors_behind (agent : AgentState) (neighbors : List AgentState)
    (colinear : Bool) : Except PyErr (List AgentState) :=
  if agent.position = [] then .error .posError
  else if agent.direction = [] then .error .dirError
  else if colinear then filterE (fun n => is_linear agent n false) neighbors
  else filterE (fun n => do pure (!(← in_front_planar agent n))) neighbors

/-! ## Helper lemmas -/

/-- A list with at least three elements starts with three explicit
components. -/
theorem exists_three_of_le_length {l : List ℚ} (h : 3 ≤ l.length) :
    ∃ x y z t, l = x :: y :: z :: t := by
  rcases l with _ | ⟨x, l⟩
  · simp at h
  rcases l with _ | ⟨y, l⟩
  · simp at h
  rcases l with _ | ⟨z, l⟩
  · simp at h
  exact ⟨x, y, z, l, rfl⟩

/-- When the fallible predicate succeeds on every element of the list,
`filterE` succeeds and agrees with the pure `List.filter`. -/
theorem filterE_ok {p : AgentState → Except PyErr Bool}
    {f : AgentState → Bool} {l : List AgentState}
    (h : ∀ x ∈ l, p x = .ok (f x)) :
    filterE p l = .ok (l.filter f) := by
  induction l with
  | nil => rfl
  | cons x xs ih =>
    have hx := h x (by simp)
    have hxs := ih (fun y hy => h y (by simp [hy]))
    by_cases hf : f x <;>
      simp [filterE, hx, hxs, hf, List.filter_cons, Bind.bind, Except.bind,
        Pure.pure, Except.pure]

/-- Shape lemma for `in_front_planar`: with three components available in
each vector it returns the sign test of the dot product of the direction
with the displacement. -/
theorem in_front_planar_shape (a n : AgentState)
    (p0 p1 p2 q0 q1 q2 u0 u1 u2 : ℚ) (pr qr ur : List ℚ)
    (ha : a.position = p0 :: p1 :: p2 :: pr)
    (hn : n.position = q0 :: q1 :: q2 :: qr)
    (hd : a.direction = u0 :: u1 :: u2 :: ur) :
    in_front_planar a n =
      .ok (decide (0 < u0 * (q0 - p0) + u1 * (q1 - p1) + u2 * (q2 - p2))) := by
  simp [in_front_planar, ha, hn, hd, idx, Bind.bind, Except.bind,
    Pure.pure, Except.pure]

/-- The planar half-space predicate, stated directly: the dot product of
the agent's direction with the displacement towards the neighbor is
strictly positive (components read with `getD`, present whenever the
vectors have three components). -/
def front_flag (a n : AgentState) : Bool :=
  decide (0 <
    a.direction.getD 0 0 * (n.position.getD 0 0 - a.position.getD 0 0)
    + a.direction.getD 1 0 * (n.position.getD 1 0 - a.position.getD 1 0)
    + a.direction.getD 2 0 * (n.position.getD 2 0 - a.position.getD 2 0))

/-- With three components available, `in_front_planar` computes
`front_flag`. -/
theorem in_front_planar_eq_front_flag (a n : AgentState)
    (hp : 3 ≤ a.position.length) (hd : 3 ≤ a.direction.length)
    (hn : 3 ≤ n.position.length) :
    in_front_planar a n = .ok (front_flag a n) := by
  obtain ⟨p0, p1, p2, pr, hp'⟩ := exists_three_of_le_length hp
  obtain ⟨u0, u1, u2, ur, hd'⟩ := exists_three_of_le_length hd
  obtain ⟨q0, q1, q2, qr, hn'⟩ := exists_three_of_le_length hn
  rw [in_front_planar_shape a n p0 p1 p2 q0 q1 q2 u0 u1 u2 pr qr ur hp' hn' hd']
  simp [front_flag, hp', hd', hn']

/-- Both boolean comparisons of `in_radius` bundled into the inclusive
range membership. -/
theorem decide_and_comm (d mx mn : ℝ) :
    (decide (d ≤ mx) && decide (d ≥ mn)) = decide (mn ≤ d ∧ d ≤ mx) := by
  by_cases h1 : d ≤ mx <;> by_cases h2 : mn ≤ d <;> simp [h1, h2]

/-- When the distance-function name resolves, `in_radius` is the
inclusive range test on the computed distance. -/
theorem in_radius_eq_range (a : AgentState) (mx mn : ℝ) (name : String)
    (f : List ℚ → List ℚ → ℝ) (hf : distance_func name = some f)
    (n : AgentState) :
    in_radius a mx mn name n =
      .ok (decide (mn ≤ f n.position a.position ∧ f n.position a.position ≤ mx)) := by
  simp [in_radius, hf, decide_and_comm]

/-! ## Claim theorems -/

/-- C1: the claim says `neighbors_on_position` returns exactly the
candidates whose position equals the reference position; the code instead
subscripts the candidate record with the integer loop index
(`neighbor[ind]`), an absent key of the field-name mapping, so even a
candidate at exactly the reference position `[1, 2]` produces a key error
rather than being returned. -/
theorem neighbors_on_position_indexes_record_not_position :
    neighbors_on_position ⟨[1, 2], []⟩ [⟨[1, 2], []⟩] = .error .keyError := rfl

/-- C2: the claim says `is_linear` is decided by the zero test on the
cross product; the code's `reduce(lambda a, b: not bool(a or b), …)` does
not compute that test.  At agent position `[0,0,0]`, direction `[1,0,0]`:
the candidate `[2,0,0]` is exactly colinear and same-direction (cross
product zero, `same_dir = front = True`), yet the code returns `False`;
the candidate `[0,0,1]` has nonzero cross product `(0,-1,0)`, where the
claim demands `False`, yet the code returns `True` for `front=False`. -/
theorem is_linear_reduce_misclassifies_colinearity :
    is_linear ⟨[0, 0, 0], [1, 0, 0]⟩ ⟨[2, 0, 0], []⟩ true = .ok false ∧
    is_linear ⟨[0, 0, 0], [1, 0, 0]⟩ ⟨[0, 0, 1], []⟩ false = .ok true := by
  constructor <;>
    norm_num [is_linear, idx, truthy, Bind.bind, Except.bind, Pure.pure,
      Except.pure]

/-- C3: the claim says colinear mode keeps on-axis candidates (positive
sense in front, negative sense behind) and drops off-axis candidates from
both results.  With agent position `[0,0,0]` and direction `[1,0,0]`, the
code instead drops the positive on-axis candidate `[2,0,0]` from
`neighbors_in_front`, drops the negative on-axis candidate `[-2,0,0]`
from `neighbors_behind`, and keeps the off-axis candidate `[0,0,1]` in
`neighbors_behind`. -/
theorem colinear_mode_excludes_axis_candidates :
    neighbors_in_front ⟨[0, 0, 0], [1, 0, 0]⟩ [⟨[2, 0, 0], []⟩] true = .ok [] ∧
    neighbors_behind ⟨[0, 0, 0], [1, 0, 0]⟩ [⟨[-2, 0, 0], []⟩] true = .ok [] ∧
    neighbors_behind ⟨[0, 0, 0], [1, 0, 0]⟩ [⟨[0, 0, 1], []⟩] true
      = .ok [⟨[0, 0, 1], []⟩] := by
  refine ⟨?_, ?_, ?_⟩ <;>
    norm_num [neighbors_in_front, neighbors_behind, filterE, is_linear, idx,
      truthy, Bind.bind, Except.bind, Pure.pure, Except.pure] <;> simp

/-- C5: `in_front_planar` returns exactly the strict-positivity test of
the dot product of the agent's direction with the displacement from the
agent to the neighbor; a zero dot product (exactly perpendicular) yields
`false`. -/
theorem in_front_planar_dot_positive (a n : AgentState)
    (p0 p1 p2 q0 q1 q2 u0 u1 u2 : ℚ) (pr qr ur : List ℚ)
    (ha : a.position = p0 :: p1 :: p2 :: pr)
    (hn : n.position = q0 :: q1 :: q2 :: qr)
    (hd : a.direction = u0 :: u1 :: u2 :: ur) :
    in_front_planar a n =
      .ok (decide (0 < u0 * (q0 - p0) + u1 * (q1 - p1) + u2 * (q2 - p2))) :=
  in_front_planar_shape a n p0 p1 p2 q0 q1 q2 u0 u1 u2 pr qr ur ha hn hd

/-- C5 witness: with direction `(1,0,0)`, the offsets `(1,0,0)`,
`(-1,0,0)` and `(0,1,0)` are classified in front, not in front, and not
in front (perpendicular) respectively. -/
theorem in_front_planar_dot_positive_witness :
    (in_front_planar ⟨[0, 0, 0], [1, 0, 0]⟩ ⟨[1, 0, 0], []⟩ =
      .ok (decide ((0 : ℚ) < 1 * (1 - 0) + 0 * (0 - 0) + 0 * (0 - 0)))) ∧
    (in_front_planar ⟨[0, 0, 0], [1, 0, 0]⟩ ⟨[-1, 0, 0], []⟩ =
      .ok (decide ((0 : ℚ) < 1 * (-1 - 0) + 0 * (0 - 0) + 0 * (0 - 0)))) ∧
    (in_front_planar ⟨[0, 0, 0], [1, 0, 0]⟩ ⟨[0, 1, 0], []⟩ =
      .ok (decide ((0 : ℚ) < 1 * (0 - 0) + 0 * (1 - 0) + 0 * (0 - 0)))) :=
  ⟨in_front_planar_dot_positive _ _ 0 0 0 1 0 0 1 0 0 [] [] [] rfl rfl rfl,
   in_front_planar_dot_positive _ _ 0 0 0 (-1) 0 0 1 0 0 [] [] [] rfl rfl rfl,
   in_front_planar_dot_positive _ _ 0 0 0 0 1 0 1 0 0 [] [] [] rfl rfl rfl⟩

/-- C7: the result of `neighbors_in_radius` does not depend on the
`z_axis` flag: the body never reads it. -/
theorem z_axis_flag_no_effect (a : AgentState) (ns : List AgentState)
    (mx mn : ℝ) (df : String) :
    neighbors_in_radius a ns mx mn df true =
      neighbors_in_radius a ns mx mn df false := rfl

/-- C4: for each of the four named distance functions,
`neighbors_in_radius` keeps exactly the candidates whose distance from
the reference position lies in the inclusive range
`[min_radius, max_radius]`, in input order. -/
theorem neighbors_in_radius_exact_range (a : AgentState)
    (ns : List AgentState) (mx mn : ℝ) (z : Bool) (hpos : a.position ≠ [])
    (hlen : ∀ n ∈ ns, n.position.length = a.position.length) :
    neighbors_in_radius a ns mx mn "manhattan" z =
      .ok (ns.filter fun n =>
        decide (mn ≤ ((manhattan_distance n.position a.position : ℚ) : ℝ) ∧
          ((manhattan_distance n.position a.position : ℚ) : ℝ) ≤ mx)) ∧
    neighbors_in_radius a ns mx mn "euclidean" z =
      .ok (ns.filter fun n =>
        decide (mn ≤ euclidean_distance n.position a.position ∧
          euclidean_distance n.position a.position ≤ mx)) ∧
    neighbors_in_radius a ns mx mn "euclidean_squared" z =
      .ok (ns.filter fun n =>
        decide (mn ≤ ((euclidean_squared_distance n.position a.position : ℚ) : ℝ) ∧
          ((euclidean_squared_distance n.position a.position : ℚ) : ℝ) ≤ mx)) ∧
    neighbors_in_radius a ns mx mn "chebyshev" z =
      .ok (ns.filter fun n =>
        decide (mn ≤ ((chebyshev_distance n.position a.position : ℚ) : ℝ) ∧
          ((chebyshev_distance n.position a.position : ℚ) : ℝ) ≤ mx)) := by
  have hm : distance_func "manhattan" =
      some (fun p q => ((manhattan_distance p q : ℚ) : ℝ)) := by
    simp [distance_func]
  have he : distance_func "euclidean" =
      some (fun p q => euclidean_distance p q) := by
    simp [distance_func]
  have hs : distance_func "euclidean_squared" =
      some (fun p q => ((euclidean_squared_distance p q : ℚ) : ℝ)) := by
    simp [distance_func]
  have hc : distance_func "chebyshev" =
      some (fun p q => ((chebyshev_distance p q : ℚ) : ℝ)) := by
    simp [distance_func]
  refine ⟨?_, ?_, ?_, ?_⟩ <;> rw [neighbors_in_radius, if_neg hpos]
  · exact filterE_ok (fun x _ => in_radius_eq_range a mx mn _ _ hm x)
  · exact filterE_ok (fun x _ => in_radius_eq_range a mx mn _ _ he x)
  · exact filterE_ok (fun x _ => in_radius_eq_range a mx mn _ _ hs x)
  · exact filterE_ok (fun x _ => in_radius_eq_range a mx mn _ _ hc x)

/-- C4 witness: the spec's concrete scenario — agent at the origin and
candidates at `[2,0,0]`, `[-2,0,0]`, `[0,2,0]` with radius bounds
`[0, 3]`. -/
theorem neighbors_in_radius_exact_range_witness :
    (⟨[0, 0, 0], [1, 0, 0]⟩ : AgentState).position ≠ [] ∧
    (neighbors_in_radius ⟨[0, 0, 0], [1, 0, 0]⟩
        [⟨[2, 0, 0], []⟩, ⟨[-2, 0, 0], []⟩, ⟨[0, 2, 0], []⟩] 3 0 "euclidean"
        false =
      .ok ([⟨[2, 0, 0], []⟩, ⟨[-2, 0, 0], []⟩,
          (⟨[0, 2, 0], []⟩ : AgentState)].filter fun n =>
        decide ((0 : ℝ) ≤ euclidean_distance n.position [0, 0, 0] ∧
          euclidean_distance n.position [0, 0, 0] ≤ 3))) :=
  ⟨by simp,
   (neighbors_in_radius_exact_range ⟨[0, 0, 0], [1, 0, 0]⟩
      [⟨[2, 0, 0], []⟩, ⟨[-2, 0, 0], []⟩, ⟨[0, 2, 0], []⟩] 3 0 false
      (by simp) (by intro n hn; fin_cases hn <;> rfl)).2.1⟩

/-- C6: a reference agent with a missing/falsy position makes all four
filter functions fail with the position-precondition error regardless of
the candidate list; with a position but a missing/falsy direction, the
two orientation filters fail with the direction-precondition error. -/
theorem missing_field_precondition_errors (a : AgentState)
    (ns : List AgentState) (mx mn : ℝ) (df : String) (z c : Bool) :
    (a.position = [] →
      neighbors_on_position a ns = .error .posError ∧
      neighbors_in_radius a ns mx mn df z = .error .posError ∧
      neighbors_in_front a ns c = .error .posError ∧
      neighbors_behind a ns c = .error .posError) ∧
    (a.position ≠ [] → a.direction = [] →
      neighbors_in_front a ns c = .error .dirError ∧
      neighbors_behind a ns c = .error .dirError) := by
  refine ⟨fun h => ?_, fun h1 h2 => ?_⟩
  · simp [neighbors_on_position, neighbors_in_radius, neighbors_in_front,
      neighbors_behind, h]
  · simp [neighbors_in_front, neighbors_behind, h1, h2]

/-- C6 witness: an agent with empty position triggers the position error;
an agent with a position but empty direction triggers the direction
error. -/
theorem missing_field_precondition_errors_witness :
    neighbors_on_position ⟨[], [1, 0, 0]⟩ [] = .error .posError ∧
    neighbors_in_front ⟨[1, 0, 0], []⟩ [] false = .error .dirError :=
  ⟨((missing_field_precondition_errors ⟨[], [1, 0, 0]⟩ [] 1 0 "euclidean"
      false false).1 rfl).1,
   ((missing_field_precondition_errors ⟨[1, 0, 0], []⟩ [] 1 0 "euclidean"
      false false).2 (by simp) rfl).1⟩

/-- C8: with a valid reference position and a non-empty candidate list, a
`distance_function` name outside the four recognised ones makes
`neighbors_in_radius` fail with the key error raised when the first
candidate is evaluated. -/
theorem unknown_distance_name_key_error (a n : AgentState)
    (ns : List AgentState) (mx mn : ℝ) (df : String) (z : Bool)
    (hpos : a.position ≠ [])
    (hdf : df ∉ ["manhattan", "euclidean", "euclidean_squared", "chebyshev"]) :
    neighbors_in_radius a (n :: ns) mx mn df z = .error .keyError := by
  simp only [List.mem_cons, List.not_mem_nil, or_false, not_or] at hdf
  obtain ⟨h1, h2, h3, h4⟩ := hdf
  have hnone : distance_func df = none := by
    simp [distance_func, h1, h2, h3, h4]
  simp [neighbors_in_radius, hpos, filterE, in_radius, hnone, Bind.bind,
    Except.bind]

/-- C8 witness: the name `"foo"` on a one-candidate list. -/
theorem unknown_distance_name_key_error_witness :
    (⟨[0, 0, 0], []⟩ : AgentState).position ≠ [] ∧
    neighbors_in_radius ⟨[0, 0, 0], []⟩ [⟨[1, 0, 0], []⟩] 1 0 "foo" false =
      .error .keyError :=
  ⟨by simp,
   unknown_distance_name_key_error ⟨[0, 0, 0], []⟩ ⟨[1, 0, 0], []⟩ [] 1 0
     "foo" false (by simp) (by simp)⟩

/-- C9: every filter function, called with an agent satisfying its field
preconditions and an empty candidate list, returns the empty list and no
error — even for an unrecognised distance-function name, since the lazy
filter never evaluates its predicate. -/
theorem empty_candidates_empty_result (a : AgentState) (mx mn : ℝ)
    (df : String) (z c : Bool) (hpos : a.position ≠ []) :
    neighbors_on_position a [] = .ok [] ∧
    neighbors_in_radius a [] mx mn df z = .ok [] ∧
    (a.direction ≠ [] →
      neighbors_in_front a [] c = .ok [] ∧
      neighbors_behind a [] c = .ok []) := by
  refine ⟨?_, ?_, fun hdir => ?_⟩
  · simp [neighbors_on_position, hpos, filterE]
  · simp [neighbors_in_radius, hpos, filterE]
  · constructor <;> cases c <;>
      simp [neighbors_in_front, neighbors_behind, hpos, hdir, filterE]

/-- C9 witness: a fully-formed agent with no candidates. -/
theorem empty_candidates_empty_result_witness :
    (⟨[0, 0, 0], [1, 0, 0]⟩ : AgentState).position ≠ [] ∧
    (neighbors_on_position ⟨[0, 0, 0], [1, 0, 0]⟩ [] = .ok [] ∧
     neighbors_in_radius ⟨[0, 0, 0], [1, 0, 0]⟩ [] 1 0 "euclidean" false =
       .ok [] ∧
     ((⟨[0, 0, 0], [1, 0, 0]⟩ : AgentState).direction ≠ [] →
       neighbors_in_front ⟨[0, 0, 0], [1, 0, 0]⟩ [] false = .ok [] ∧
       neighbors_behind ⟨[0, 0, 0], [1, 0, 0]⟩ [] false = .ok [])) :=
  ⟨by simp,
   empty_candidates_empty_result ⟨[0, 0, 0], [1, 0, 0]⟩ 1 0 "euclidean"
     false false (by simp)⟩

/-- C10: in planar mode the two orientation filters are the filters of
the half-space predicate and of its exact negation (so a perpendicular
candidate, dot product zero, lands in `neighbors_behind`), both keeping
the input order, and every candidate belongs to exactly one of the two
results. -/
theorem planar_front_behind_partition (a : AgentState)
    (ns : List AgentState) (hp : 3 ≤ a.position.length)
    (hd : 3 ≤ a.direction.length) (hn : ∀ n ∈ ns, 3 ≤ n.position.length) :
    neighbors_in_front a ns false = .ok (ns.filter fun n => front_flag a n) ∧
    neighbors_behind a ns false = .ok (ns.filter fun n => !front_flag a n) ∧
    ∀ c ∈ ns,
      (c ∈ ns.filter (fun n => front_flag a n) ↔
        c ∉ ns.filter fun n => !front_flag a n) := by
  have hpe : a.position ≠ [] := by
    intro h
    rw [h] at hp
    simp at hp
  have hde : a.direction ≠ [] := by
    intro h
    rw [h] at hd
    simp at hd
  refine ⟨?_, ?_, ?_⟩
  · rw [neighbors_in_front, if_neg hpe, if_neg hde, if_neg (by simp)]
    exact filterE_ok (fun x hx =>
      in_front_planar_eq_front_flag a x hp hd (hn x hx))
  · rw [neighbors_behind, if_neg hpe, if_neg hde, if_neg (by simp)]
    exact filterE_ok (fun x hx => by
      simp [Bind.bind, Except.bind, Pure.pure, Except.pure,
        in_front_planar_eq_front_flag a x hp hd (hn x hx)])
  · intro c hc
    simp [List.mem_filter, hc]

/-- C10 witness: agent at the origin facing `(1,0,0)` with one candidate
ahead and one perpendicular. -/
theorem planar_front_behind_partition_witness :
    3 ≤ (⟨[0, 0, 0], [1, 0, 0]⟩ : AgentState).position.length ∧
    (neighbors_in_front ⟨[0, 0, 0], [1, 0, 0]⟩
        [⟨[2, 0, 0], []⟩, ⟨[0, 2, 0], []⟩] false =
      .ok ([⟨[2, 0, 0], []⟩, (⟨[0, 2, 0], []⟩ : AgentState)].filter fun n =>
        front_flag ⟨[0, 0, 0], [1, 0, 0]⟩ n) ∧
    neighbors_behind ⟨[0, 0, 0], [1, 0, 0]⟩
        [⟨[2, 0, 0], []⟩, ⟨[0, 2, 0], []⟩] false =
      .ok ([⟨[2, 0, 0], []⟩, (⟨[0, 2, 0], []⟩ : AgentState)].filter fun n =>
        !front_flag ⟨[0, 0, 0], [1, 0, 0]⟩ n) ∧
    ∀ c ∈ [⟨[2, 0, 0], []⟩, (⟨[0, 2, 0], []⟩ : AgentState)],
      (c ∈ [⟨[2, 0, 0], []⟩, (⟨[0, 2, 0], []⟩ : AgentState)].filter
          (fun n => front_flag ⟨[0, 0, 0], [1, 0, 0]⟩ n) ↔
        c ∉ [⟨[2, 0, 0], []⟩, (⟨[0, 2, 0], []⟩ : AgentState)].filter
          fun n => !front_flag ⟨[0, 0, 0], [1, 0, 0]⟩ n)) :=
  ⟨by simp,
   planar_front_behind_partition ⟨[0, 0, 0], [1, 0, 0]⟩
     [⟨[2, 0, 0], []⟩, ⟨[0, 2, 0], []⟩] (by simp) (by simp)
     (by intro x hx; fin_cases hx <;> simp)⟩
